import Mathlib

/-!
Shallow embedding of the browser-extension background script
(`background.js`): the active-window tracker `updateActiveWindow`, the
settings propagator `applyStylesToTabs`, and the event handlers for
window-focus changes and the `toggle-contrast` keyboard command.

The persistent key-value store is modelled as a record of `Option` fields
(`none` = key absent from storage).  Host-API behaviour that the script
only observes — the result of `chrome.windows.getLastFocused`, the tab
list returned by `chrome.tabs.query`, and whether each host call
succeeds — is packaged into a `Host` record; each script function becomes
a pure function on `Host` returning the resulting host state together
with the list of message-send attempts it made.
-/

namespace Lowlight

/-- The persistent `chrome.storage.local` contents, restricted to the six
keys this script ever reads or writes.  `none` means the key is absent. -/
structure Storage where
  contrastEnabled : Option Bool
  contrastLevel : Option Int
  brightnessLevel : Option Int
  saturationLevel : Option Int
  scope : Option String
  activeWindowId : Option Int
deriving Repr, DecidableEq

/-- A browser tab as seen by this script: `chrome.tabs.query` results. -/
structure Tab where
  id : Int
  windowId : Int
  url : String
deriving Repr, DecidableEq

/-- The payload of `chrome.tabs.sendMessage` built in `applyStylesToTabs`. -/
structure Msg where
  action : String
  enabled : Bool
  level : Int
  brightness : Int
  saturation : Int
deriving Repr, DecidableEq

/-- The settings record after the merge with defaults
(`{ contrastEnabled: false, ..., ...settings }`): the five filter keys are
always present afterwards, `activeWindowId` may still be absent. -/
structure MergedSettings where
  contrastEnabled : Bool
  contrastLevel : Int
  brightnessLevel : Int
  saturationLevel : Int
  scope : String
  activeWindowId : Option Int
deriving Repr, DecidableEq

/-- One `chrome.tabs.sendMessage` attempt made during a propagation pass:
the target tab id, the payload, and whether the host delivered it. -/
structure SendAttempt where
  tabId : Int
  payload : Msg
  delivered : Bool
deriving Repr, DecidableEq

/-- The two named operations an event handler can invoke. -/
inductive OpCall where
  | callUpdateActiveWindow
  | callApplyStylesToTabs
deriving Repr, DecidableEq

/-- Host-platform state and behaviour visible to one run of a handler:
current storage, the tab list the http/https query would return, the
`getLastFocused` result (`Except.error` = rejected promise, `ok none` =
no window object, `ok (some i)` = a window with id `i`), failure flags
for the storage and tab APIs, and the per-tab send outcome
(`some e` = the send promise rejects with error message `e`). -/
structure Host where
  storage : Storage
  tabs : List Tab
  lastFocused : Except String (Option Int)
  storageGetFails : Bool
  storageSetFails : Bool
  tabsQueryFails : Bool
  sendError : Int → Option String

/-- The default-merge from `applyStylesToTabs`:
`{ contrastEnabled: false, contrastLevel: 100, brightnessLevel: 100,
saturationLevel: 100, scope: 'all', ...settings }` — the spread lets a
key present in the storage read override its default; `activeWindowId`
has no default entry, so it stays absent when storage lacks it. -/
def finalSettings (settings : Storage) : MergedSettings where
  contrastEnabled := settings.contrastEnabled.getD false
  contrastLevel := settings.contrastLevel.getD 100
  brightnessLevel := settings.brightnessLevel.getD 100
  saturationLevel := settings.saturationLevel.getD 100
  scope := settings.scope.getD "all"
  activeWindowId := settings.activeWindowId

/-- JavaScript strict equality `tab.windowId === finalSettings.activeWindowId`:
a number is `===`-equal to `undefined` (absent id) for no value. -/
def windowIdMatches (w : Int) : Option Int → Bool
  | some a => decide (w = a)
  | none => false

/-- The per-tab `apply` decision of `applyStylesToTabs`:
`let apply = false; if (contrastEnabled) { if (scope === 'all') apply = true;
else if (scope === 'window' && tab.windowId === activeWindowId) apply = true; }`. -/
def decideApply (fs : MergedSettings) (t : Tab) : Bool :=
  if fs.contrastEnabled = true then
    if fs.scope = "all" then true
    else if fs.scope = "window" ∧ windowIdMatches t.windowId fs.activeWindowId = true then true
    else false
  else false

/-- The message payload sent to a tab by `applyStylesToTabs`. -/
def styleMessage (fs : MergedSettings) (t : Tab) : Msg where
  action := "applyStyle"
  enabled := decideApply fs t
  level := fs.contrastLevel
  brightness := fs.brightnessLevel
  saturation := fs.saturationLevel

/-- Outcome of one `chrome.tabs.sendMessage` promise. -/
def sendOutcome (err : Option String) : Except String Unit :=
  match err with
  | some e => Except.error e
  | none => Except.ok ()

/-- Whether `error.message.includes("Receiving end does not exist")` holds. -/
def mentionsNoReceiver (e : String) : Bool :=
  (e.splitOn "Receiving end does not exist").length != 1

/-- The `.catch` handler attached to every send: when the message does not
mention a missing receiving end the (commented-out) warning branch is taken;
either way the rejection is consumed and nothing is rethrown. -/
def swallowSendError (e : String) : Unit :=
  if mentionsNoReceiver e then () else ()

/-- A settled send promise after its `.catch`: always `()`. -/
def catchSend : Except String Unit → Unit
  | Except.ok _ => ()
  | Except.error e => swallowSendError e

/-- Whether the host delivered the message (the promise did not reject). -/
def deliveredOf : Except String Unit → Bool
  | Except.ok _ => true
  | Except.error _ => false

/-- The `for (const tab of tabs)` loop of `applyStylesToTabs`: each tab gets
a fire-and-forget send whose rejection is consumed by `catchSend`; the loop
continues to the next tab regardless of the outcome. -/
def sendLoop (fs : MergedSettings) (sendError : Int → Option String) :
    List Tab → List SendAttempt
  | [] => []
  | t :: rest =>
      let m := styleMessage fs t
      let outcome := sendOutcome (sendError t.id)
      let _ := catchSend outcome
      { tabId := t.id, payload := m, delivered := deliveredOf outcome } :: sendLoop fs sendError rest

/-- `applyStylesToTabs()`: read the six keys from storage, merge with
defaults, query http/https tabs, and send each tab its payload.  A
storage-read or tab-query failure is caught by the surrounding
`try/catch` (logged only), producing no sends and no state change.  The
function contains no storage write. -/
def applyStylesToTabs (h : Host) : Host × List SendAttempt :=
  if h.storageGetFails = true then (h, [])
  else if h.tabsQueryFails = true then (h, [])
  else (h, sendLoop (finalSettings h.storage) h.sendError h.tabs)

/-- `updateActiveWindow()`: query `getLastFocused`; when a window object
with a truthy id is returned (`if (lastFocused?.id)` — id `0` is falsy),
write that id under `activeWindowId`.  Any query or write failure is
caught by the surrounding `try/catch` and leaves storage unchanged. -/
def updateActiveWindow (h : Host) : Host :=
  match h.lastFocused with
  | Except.error _ => h
  | Except.ok none => h
  | Except.ok (some wid) =>
      if wid = 0 then h
      else if h.storageSetFails = true then h
      else { h with storage := { h.storage with activeWindowId := some wid } }

/-- The `chrome.windows.onFocusChanged` listener: for `windowId > 0`
(a real window id; `-1` is `chrome.windows.WINDOW_ID_NONE`, the
"no window focused" sentinel) it awaits `updateActiveWindow()` and then
awaits `applyStylesToTabs()`; otherwise it does nothing.  The returned
`OpCall` list records which operations the handler invoked, in order. -/
def onFocusChanged (wid : Int) (h : Host) : Host × List SendAttempt × List OpCall :=
  if wid > 0 then
    ((applyStylesToTabs (updateActiveWindow h)).1,
     (applyStylesToTabs (updateActiveWindow h)).2,
     [OpCall.callUpdateActiveWindow, OpCall.callApplyStylesToTabs])
  else (h, [], [])

/-- The `chrome.commands.onCommand` listener: on `toggle-contrast` it
destructures `contrastEnabled` from a storage read (an absent key reads
as `undefined`, which is falsy, so `!contrastEnabled` negates the
truthiness of the read value) and writes the negation back.  It invokes
neither `updateActiveWindow` nor `applyStylesToTabs`. -/
def onCommand (cmd : String) (h : Host) : Host × List OpCall :=
  if cmd = "toggle-contrast" then
    if h.storageGetFails = true then (h, [])
    else
      if h.storageSetFails = true then (h, [])
      else
        ({ h with storage :=
            { h.storage with
                contrastEnabled := some (!(h.storage.contrastEnabled.getD false)) } }, [])
  else (h, [])

/-- A storage state with every key absent. -/
def emptyStorage : Storage :=
  { contrastEnabled := none, contrastLevel := none, brightnessLevel := none
    saturationLevel := none, scope := none, activeWindowId := none }

/-- The documented defaults written out explicitly (`activeWindowId` absent). -/
def defaultStorage : Storage :=
  { contrastEnabled := some false, contrastLevel := some 100, brightnessLevel := some 100
    saturationLevel := some 100, scope := some "all", activeWindowId := none }

/-- Two http/https tabs in two different windows. -/
def tabsTwo : List Tab :=
  [{ id := 1, windowId := 10, url := "https://a" },
   { id := 2, windowId := 11, url := "http://b" }]

/-- Host with window-scoped settings and `activeWindowId = 10`. -/
def hostWindowScope : Host where
  storage := { contrastEnabled := some true, contrastLevel := some 80
               brightnessLevel := some 110, saturationLevel := some 100
               scope := some "window", activeWindowId := some 10 }
  tabs := tabsTwo
  lastFocused := Except.ok (some 10)
  storageGetFails := false
  storageSetFails := false
  tabsQueryFails := false
  sendError := fun _ => none

/-- Host where the send to tab 1 rejects with an absent-receiver error. -/
def hostMixedSends : Host where
  storage := { contrastEnabled := some true, contrastLevel := some 80
               brightnessLevel := some 110, saturationLevel := some 100
               scope := some "all", activeWindowId := none }
  tabs := tabsTwo
  lastFocused := Except.ok (some 10)
  storageGetFails := false
  storageSetFails := false
  tabsQueryFails := false
  sendError := fun i =>
    if i = 1 then some "Could not establish connection. Receiving end does not exist." else none

/-- Host with window scope enabled but no stored `activeWindowId`. -/
def hostNoAwid : Host where
  storage := { contrastEnabled := some true, contrastLevel := some 100
               brightnessLevel := some 100, saturationLevel := some 100
               scope := some "window", activeWindowId := none }
  tabs := tabsTwo
  lastFocused := Except.ok (some 10)
  storageGetFails := false
  storageSetFails := false
  tabsQueryFails := false
  sendError := fun _ => none

/-- Host whose storage currently has `contrastEnabled = true`. -/
def hostToggle : Host where
  storage := { contrastEnabled := some true, contrastLevel := none
               brightnessLevel := none, saturationLevel := none
               scope := none, activeWindowId := none }
  tabs := tabsTwo
  lastFocused := Except.ok (some 10)
  storageGetFails := false
  storageSetFails := false
  tabsQueryFails := false
  sendError := fun _ => none

/-- Host whose `getLastFocused` reports a window with id 42. -/
def hostFocus : Host where
  storage := emptyStorage
  tabs := tabsTwo
  lastFocused := Except.ok (some 42)
  storageGetFails := false
  storageSetFails := false
  tabsQueryFails := false
  sendError := fun _ => none

/-- Host whose storage read rejects and whose `getLastFocused` yields no window. -/
def hostGetFails : Host where
  storage := defaultStorage
  tabs := tabsTwo
  lastFocused := Except.ok none
  storageGetFails := true
  storageSetFails := false
  tabsQueryFails := false
  sendError := fun _ => none

/-! Helper lemmas about the send loop. -/

theorem sendLoop_length (fs : MergedSettings) (se : Int → Option String) :
    ∀ ts : List Tab, (sendLoop fs se ts).length = ts.length := by
  intro ts
  induction ts with
  | nil => rfl
  | cons t rest ih => simp [sendLoop, ih]

theorem sendLoop_pairs (fs : MergedSettings) (se : Int → Option String) :
    ∀ ts : List Tab,
      (sendLoop fs se ts).map (fun a => (a.tabId, a.payload))
        = ts.map (fun t => (t.id, styleMessage fs t)) := by
  intro ts
  induction ts with
  | nil => rfl
  | cons t rest ih => simp [sendLoop, ih]

theorem sendLoop_zip (fs : MergedSettings) (se : Int → Option String) :
    ∀ ts : List Tab, ∀ p ∈ (sendLoop fs se ts).zip ts,
      p.1.tabId = p.2.id ∧ p.1.payload = styleMessage fs p.2 := by
  intro ts
  induction ts with
  | nil => intro p hp; simp [sendLoop] at hp
  | cons t rest ih =>
      intro p hp
      simp only [sendLoop, List.zip_cons_cons, List.mem_cons] at hp
      rcases hp with hp | hp
      · subst hp; exact ⟨rfl, rfl⟩
      · exact ih p hp

theorem sendLoop_mem (fs : MergedSettings) (se : Int → Option String) :
    ∀ ts : List Tab, ∀ a ∈ sendLoop fs se ts,
      ∃ t ∈ ts, a.payload = styleMessage fs t := by
  intro ts
  induction ts with
  | nil => intro a ha; simp [sendLoop] at ha
  | cons t rest ih =>
      intro a ha
      simp only [sendLoop, List.mem_cons] at ha
      rcases ha with ha | ha
      · exact ⟨t, List.mem_cons_self t rest, by rw [ha]⟩
      · obtain ⟨u, hu, he⟩ := ih a ha
        exact ⟨u, List.mem_cons_of_mem t hu, he⟩

/-- Strict equality against a possibly-absent id, characterised. -/
theorem windowIdMatches_iff (w : Int) (o : Option Int) :
    windowIdMatches w o = true ↔ o = some w := by
  cases o with
  | none => simp [windowIdMatches]
  | some a => simp [windowIdMatches, eq_comm]

/-- The per-tab decision, characterised case by case. -/
theorem decideApply_policy (fs : MergedSettings) (t : Tab) :
    (fs.contrastEnabled = false → decideApply fs t = false) ∧
    (fs.contrastEnabled = true → fs.scope = "all" → decideApply fs t = true) ∧
    (fs.contrastEnabled = true → fs.scope = "window" →
      (decideApply fs t = true ↔ fs.activeWindowId = some t.windowId)) := by
  refine ⟨?_, ?_, ?_⟩
  · intro hce; simp [decideApply, hce]
  · intro hce hs; simp [decideApply, hce, hs]
  · intro hce hs
    have hd : decideApply fs t = windowIdMatches t.windowId fs.activeWindowId := by
      unfold decideApply
      rw [hs, if_pos hce, if_neg (by decide : ¬("window" : String) = "all")]
      cases hwm : windowIdMatches t.windowId fs.activeWindowId with
      | true => rw [if_pos ⟨rfl, rfl⟩]
      | false => rw [if_neg (fun hc => by simp at hc)]
    rw [hd]
    exact windowIdMatches_iff _ _

/-- C1: for every storage state and every enumerated tab, the per-tab
`enabled` flag follows exactly the documented policy: `false` whenever
`contrastEnabled` is not `true`; `true` for every tab when scope is
`all`; and under scope `window`, `true` exactly when the tab's
`windowId` equals the stored `activeWindowId`. -/
theorem applyStylesToTabs_enabled_policy (h : Host)
    (hg : h.storageGetFails = false) (hq : h.tabsQueryFails = false) :
    ((applyStylesToTabs h).2).length = h.tabs.length ∧
    ∀ p ∈ ((applyStylesToTabs h).2).zip h.tabs,
      ((finalSettings h.storage).contrastEnabled = false → p.1.payload.enabled = false) ∧
      ((finalSettings h.storage).contrastEnabled = true →
        (finalSettings h.storage).scope = "all" → p.1.payload.enabled = true) ∧
      ((finalSettings h.storage).contrastEnabled = true →
        (finalSettings h.storage).scope = "window" →
          (p.1.payload.enabled = true ↔ h.storage.activeWindowId = some p.2.windowId)) := by
  have hrun : (applyStylesToTabs h).2 = sendLoop (finalSettings h.storage) h.sendError h.tabs := by
    unfold applyStylesToTabs
    rw [if_neg (by simp [hg]), if_neg (by simp [hq])]
  constructor
  · rw [hrun]; exact sendLoop_length _ _ _
  · intro p hp
    rw [hrun] at hp
    have hz := sendLoop_zip (finalSettings h.storage) h.sendError h.tabs p hp
    have hpay : p.1.payload.enabled = decideApply (finalSettings h.storage) p.2 := by
      rw [hz.2]; rfl
    have hpol := decideApply_policy (finalSettings h.storage) p.2
    have hawid : (finalSettings h.storage).activeWindowId = h.storage.activeWindowId := rfl
    refine ⟨fun hce => by rw [hpay]; exact hpol.1 hce,
            fun hce hs => by rw [hpay]; exact hpol.2.1 hce hs,
            fun hce hs => by rw [hpay, ← hawid]; exact hpol.2.2 hce hs⟩

/-- Witness for C1 at a concrete window-scoped host. -/
theorem applyStylesToTabs_enabled_policy_witness :
    ((applyStylesToTabs hostWindowScope).2).length = hostWindowScope.tabs.length ∧
    ∀ p ∈ ((applyStylesToTabs hostWindowScope).2).zip hostWindowScope.tabs,
      ((finalSettings hostWindowScope.storage).contrastEnabled = false →
        p.1.payload.enabled = false) ∧
      ((finalSettings hostWindowScope.storage).contrastEnabled = true →
        (finalSettings hostWindowScope.storage).scope = "all" → p.1.payload.enabled = true) ∧
      ((finalSettings hostWindowScope.storage).contrastEnabled = true →
        (finalSettings hostWindowScope.storage).scope = "window" →
          (p.1.payload.enabled = true ↔
            hostWindowScope.storage.activeWindowId = some p.2.windowId)) :=
  applyStylesToTabs_enabled_policy hostWindowScope rfl rfl

/-- C2: propagation from an empty settings store produces exactly the
same send attempts as propagation from a store holding the documented
defaults explicitly. -/
theorem applyStylesToTabs_default_merge (h : Host) :
    (applyStylesToTabs { h with storage := emptyStorage }).2
      = (applyStylesToTabs { h with storage := defaultStorage }).2 := by
  have hfs : finalSettings emptyStorage = finalSettings defaultStorage := rfl
  by_cases hg : h.storageGetFails = true
  · simp [applyStylesToTabs, hg]
  · by_cases hq : h.tabsQueryFails = true
    · simp [applyStylesToTabs, hg, hq]
    · simp [applyStylesToTabs, hg, hq, hfs]

/-- C3: in the merge with defaults, every key present in the storage
read — including the values `false` and `0` — is used unchanged, and a
default fills in only for absent keys (stated per key). -/
theorem finalSettings_present_keys_win (s : Storage) :
    (∀ b : Bool, s.contrastEnabled = some b → (finalSettings s).contrastEnabled = b) ∧
    (∀ n : Int, s.contrastLevel = some n → (finalSettings s).contrastLevel = n) ∧
    (∀ n : Int, s.brightnessLevel = some n → (finalSettings s).brightnessLevel = n) ∧
    (∀ n : Int, s.saturationLevel = some n → (finalSettings s).saturationLevel = n) ∧
    (∀ v : String, s.scope = some v → (finalSettings s).scope = v) ∧
    (∀ w : Int, s.activeWindowId = some w → (finalSettings s).activeWindowId = some w) := by
  refine ⟨?_, ?_, ?_, ?_, ?_, ?_⟩ <;> intro x hx <;> simp [finalSettings, hx]

/-- Storage whose present values are `false`, `0`, `0`, `0`, `"window"`, `7`. -/
def presentStorage : Storage :=
  { contrastEnabled := some false, contrastLevel := some 0, brightnessLevel := some 0
    saturationLevel := some 0, scope := some "window", activeWindowId := some 7 }

/-- Witness for C3: stored `false` and `0` survive the merge unchanged. -/
theorem finalSettings_present_keys_win_witness :
    (finalSettings presentStorage).contrastEnabled = false ∧
    (finalSettings presentStorage).contrastLevel = 0 ∧
    (finalSettings presentStorage).brightnessLevel = 0 ∧
    (finalSettings presentStorage).saturationLevel = 0 ∧
    (finalSettings presentStorage).scope = "window" ∧
    (finalSettings presentStorage).activeWindowId = some 7 :=
  ⟨(finalSettings_present_keys_win presentStorage).1 false rfl,
   (finalSettings_present_keys_win presentStorage).2.1 0 rfl,
   (finalSettings_present_keys_win presentStorage).2.2.1 0 rfl,
   (finalSettings_present_keys_win presentStorage).2.2.2.1 0 rfl,
   (finalSettings_present_keys_win presentStorage).2.2.2.2.1 "window" rfl,
   (finalSettings_present_keys_win presentStorage).2.2.2.2.2 7 rfl⟩

/-- C4: `applyStylesToTabs` is idempotent — it leaves the host state
unchanged, so a second invocation on the resulting state produces
send attempts with identical payloads. -/
theorem applyStylesToTabs_idempotent (h : Host) :
    (applyStylesToTabs h).1 = h ∧
    (applyStylesToTabs ((applyStylesToTabs h).1)).2 = (applyStylesToTabs h).2 := by
  have h1 : (applyStylesToTabs h).1 = h := by
    unfold applyStylesToTabs
    split
    · rfl
    · split <;> rfl
  exact ⟨h1, by rw [h1]⟩

/-- C5: a per-tab send failure never prevents the send to any other tab:
whatever the per-tab send outcomes, the attempted (tab id, payload)
pairs are exactly one per enumerated tab, each with its computed
payload. -/
theorem applyStylesToTabs_send_failures_isolated (h : Host)
    (hg : h.storageGetFails = false) (hq : h.tabsQueryFails = false) :
    ((applyStylesToTabs h).2).map (fun a => (a.tabId, a.payload))
      = h.tabs.map (fun t => (t.id, styleMessage (finalSettings h.storage) t)) := by
  unfold applyStylesToTabs
  rw [if_neg (by simp [hg]), if_neg (by simp [hq])]
  exact sendLoop_pairs _ _ _

/-- Witness for C5: with the send to tab 1 rejecting with an
absent-receiver error, both tabs still get their computed payload. -/
theorem applyStylesToTabs_send_failures_isolated_witness :
    ((applyStylesToTabs hostMixedSends).2).map (fun a => (a.tabId, a.payload))
      = hostMixedSends.tabs.map
          (fun t => (t.id, styleMessage (finalSettings hostMixedSends.storage) t)) :=
  applyStylesToTabs_send_failures_isolated hostMixedSends rfl rfl

/-- C6: `applyStylesToTabs` never mutates storage, and when the storage
read or the tab enumeration fails the call produces no sends at all. -/
theorem applyStylesToTabs_frame (h : Host) :
    (applyStylesToTabs h).1.storage = h.storage ∧
    (h.storageGetFails = true ∨ h.tabsQueryFails = true →
      (applyStylesToTabs h).2 = []) := by
  constructor
  · unfold applyStylesToTabs
    split
    · rfl
    · split <;> rfl
  · intro hf
    unfold applyStylesToTabs
    rcases hf with hf | hf
    · rw [if_pos hf]
    · by_cases hg : h.storageGetFails = true
      · rw [if_pos hg]
      · rw [if_neg hg, if_pos hf]

/-- Witness for C6 at a host whose storage read fails. -/
theorem applyStylesToTabs_frame_witness :
    (applyStylesToTabs hostGetFails).1.storage = hostGetFails.storage ∧
    (applyStylesToTabs hostGetFails).2 = [] :=
  ⟨(applyStylesToTabs_frame hostGetFails).1,
   (applyStylesToTabs_frame hostGetFails).2 (Or.inl rfl)⟩

/-- C7: the `toggle-contrast` command writes the logical negation of the
read `contrastEnabled` (an absent key reading as falsy), changes no
other key, and invokes neither propagation operation itself. -/
theorem onCommand_toggle (h : Host)
    (hg : h.storageGetFails = false) (hs : h.storageSetFails = false) :
    (onCommand "toggle-contrast" h).1.storage.contrastEnabled
        = some (!(h.storage.contrastEnabled.getD false)) ∧
    (onCommand "toggle-contrast" h).1.storage.contrastLevel = h.storage.contrastLevel ∧
    (onCommand "toggle-contrast" h).1.storage.brightnessLevel = h.storage.brightnessLevel ∧
    (onCommand "toggle-contrast" h).1.storage.saturationLevel = h.storage.saturationLevel ∧
    (onCommand "toggle-contrast" h).1.storage.scope = h.storage.scope ∧
    (onCommand "toggle-contrast" h).1.storage.activeWindowId = h.storage.activeWindowId ∧
    (onCommand "toggle-contrast" h).2 = [] := by
  unfold onCommand
  rw [if_pos rfl, if_neg (by simp [hg]), if_neg (by simp [hs])]
  exact ⟨rfl, rfl, rfl, rfl, rfl, rfl, rfl⟩

/-- Witness for C7: toggling with `contrastEnabled = true` stored. -/
theorem onCommand_toggle_witness :
    (onCommand "toggle-contrast" hostToggle).1.storage.contrastEnabled
        = some (!(hostToggle.storage.contrastEnabled.getD false)) ∧
    (onCommand "toggle-contrast" hostToggle).1.storage.contrastLevel
        = hostToggle.storage.contrastLevel ∧
    (onCommand "toggle-contrast" hostToggle).1.storage.brightnessLevel
        = hostToggle.storage.brightnessLevel ∧
    (onCommand "toggle-contrast" hostToggle).1.storage.saturationLevel
        = hostToggle.storage.saturationLevel ∧
    (onCommand "toggle-contrast" hostToggle).1.storage.scope = hostToggle.storage.scope ∧
    (onCommand "toggle-contrast" hostToggle).1.storage.activeWindowId
        = hostToggle.storage.activeWindowId ∧
    (onCommand "toggle-contrast" hostToggle).2 = [] :=
  onCommand_toggle hostToggle rfl rfl

/-- C8: for a real (positive) window id the focus-changed handler runs
`updateActiveWindow` and then `applyStylesToTabs` on the updated state,
in that order; for the `-1` "no window focused" sentinel it does
neither. -/
theorem onFocusChanged_order (h : Host) (wid : Int) :
    (0 < wid →
      onFocusChanged wid h
        = ((applyStylesToTabs (updateActiveWindow h)).1,
           (applyStylesToTabs (updateActiveWindow h)).2,
           [OpCall.callUpdateActiveWindow, OpCall.callApplyStylesToTabs])) ∧
    (wid = -1 → onFocusChanged wid h = (h, [], [])) := by
  constructor
  · intro hw
    unfold onFocusChanged
    rw [if_pos hw]
  · intro hw
    subst hw
    unfold onFocusChanged
    rw [if_neg (by decide)]

/-- Witness for C8 at window id 5 and at the sentinel `-1`. -/
theorem onFocusChanged_order_witness :
    onFocusChanged 5 hostFocus
        = ((applyStylesToTabs (updateActiveWindow hostFocus)).1,
           (applyStylesToTabs (updateActiveWindow hostFocus)).2,
           [OpCall.callUpdateActiveWindow, OpCall.callApplyStylesToTabs]) ∧
    onFocusChanged (-1) hostFocus = (hostFocus, [], []) :=
  ⟨(onFocusChanged_order hostFocus 5).1 (by decide),
   (onFocusChanged_order hostFocus (-1)).2 rfl⟩

/-- C9: `updateActiveWindow` touches at most the key `activeWindowId`:
when the host reports a window with a valid (nonzero) id and the write
succeeds, that id is stored and the five other keys are untouched; on a
query error, a missing window, an invalid id `0`, or a write failure,
the whole host state is unchanged. -/
theorem updateActiveWindow_spec (h : Host) :
    (updateActiveWindow h).storage.contrastEnabled = h.storage.contrastEnabled ∧
    (updateActiveWindow h).storage.contrastLevel = h.storage.contrastLevel ∧
    (updateActiveWindow h).storage.brightnessLevel = h.storage.brightnessLevel ∧
    (updateActiveWindow h).storage.saturationLevel = h.storage.saturationLevel ∧
    (updateActiveWindow h).storage.scope = h.storage.scope ∧
    (∀ wid : Int, h.lastFocused = Except.ok (some wid) → wid ≠ 0 →
      h.storageSetFails = false →
      (updateActiveWindow h).storage.activeWindowId = some wid) ∧
    (∀ e : String, h.lastFocused = Except.error e → updateActiveWindow h = h) ∧
    (h.lastFocused = Except.ok none → updateActiveWindow h = h) ∧
    (h.lastFocused = Except.ok (some 0) → updateActiveWindow h = h) ∧
    (h.storageSetFails = true → updateActiveWindow h = h) := by
  cases hl : h.lastFocused with
  | error e => simp [updateActiveWindow, hl]
  | ok v =>
      cases v with
      | none => simp [updateActiveWindow, hl]
      | some wid =>
          by_cases hw : wid = 0
          · subst hw; simp [updateActiveWindow, hl]
          · by_cases hsf : h.storageSetFails = true
            · simp [updateActiveWindow, hl, hw, hsf]
            · simp [updateActiveWindow, hl, hw, hsf]

/-- Witness for C9: a reported window id 42 is stored; a host whose
query yields no window is left unchanged. -/
theorem updateActiveWindow_spec_witness :
    (updateActiveWindow hostFocus).storage.activeWindowId = some 42 ∧
    updateActiveWindow hostGetFails = hostGetFails :=
  ⟨(updateActiveWindow_spec hostFocus).2.2.2.2.2.1 42 rfl (by decide) rfl,
   (updateActiveWindow_spec hostGetFails).2.2.2.2.2.2.2.1 rfl⟩

/-- C10: with `contrastEnabled = true`, `scope = 'window'` and no stored
`activeWindowId`, every tab is sent `enabled = false`: the merged
`activeWindowId` stays absent and no tab's `windowId` is strictly equal
to it. -/
theorem applyStylesToTabs_absent_active_window (h : Host)
    (hce : h.storage.contrastEnabled = some true)
    (hsc : h.storage.scope = some "window")
    (haw : h.storage.activeWindowId = none)
    (hg : h.storageGetFails = false) (hq : h.tabsQueryFails = false) :
    ∀ a ∈ (applyStylesToTabs h).2, a.payload.enabled = false := by
  intro a ha
  have hrun : (applyStylesToTabs h).2 = sendLoop (finalSettings h.storage) h.sendError h.tabs := by
    unfold applyStylesToTabs
    rw [if_neg (by simp [hg]), if_neg (by simp [hq])]
  rw [hrun] at ha
  obtain ⟨t, _, he⟩ := sendLoop_mem _ _ _ a ha
  rw [he]
  show decideApply (finalSettings h.storage) t = false
  simp [decideApply, finalSettings, hce, hsc, haw, windowIdMatches]

/-- Witness for C10 at a concrete host with window scope and no stored id:
both attempted sends carry `enabled = false`. -/
theorem applyStylesToTabs_absent_active_window_witness :
    ((applyStylesToTabs hostNoAwid).2.get ⟨0, by decide⟩).payload.enabled = false ∧
    ((applyStylesToTabs hostNoAwid).2.get ⟨1, by decide⟩).payload.enabled = false :=
  ⟨applyStylesToTabs_absent_active_window hostNoAwid rfl rfl rfl rfl rfl _
     (List.get_mem _ _ _),
   applyStylesToTabs_absent_active_window hostNoAwid rfl rfl rfl rfl rfl _
     (List.get_mem _ _ _)⟩

end Lowlight
